import Mathlib

/-!
Shallow embedding of the OrgSpaceAPI directory service (FastAPI + SQLAlchemy,
src/main.py, src/src/models.py, src/src/schemas.py, src/src/api/).

Tables are lists of rows and a handler is a function from a database state and
its request inputs to an `ApiResult` together with the resulting state.  A
commit validates the constraints declared on the tables in src/src/models.py
(primary keys, unique columns, NOT NULL on activities.level); a failing commit
models the store raising an integrity error, after which the handler rolls
back to the last committed state, exactly as the `except ... rollback` blocks
do.  The external phonenumbers library is out of scope per the spec and is
abstracted as a `PhoneLib` record of parse / validate / format functions.

Handlers that `raise HTTPException` inside their `try` block are caught by
their own `except Exception` clause and re-surface through `handle_exception`
as a 500 whose message wraps the original text; this embedding returns
`ApiResult.serverError (wrapErr ...)` in those branches.  `JSONResponse`
values that are returned (not raised) surface unchanged.
-/

/-- Value stored in the phone_numbers.number column: the ORM validator in
src/models.py either returns a formatted string or the Python literal
False on a parse failure, so the column value is one of the two. -/
inductive NumberValue where
  | str (s : String)
  | pyFalse
  deriving DecidableEq, Repr

/-- Row of the buildings table (src/models.py, class Building).  The
latitude and longitude floats are modelled as integers; no claim in this
development depends on their arithmetic. -/
structure Building where
  id : Nat
  address : String
  latitude : Int
  longitude : Int
  deriving DecidableEq, Repr

/-- Row of the organizations table (src/models.py, class Organization). -/
structure Organization where
  id : Nat
  name : String
  building_id : Nat
  deriving DecidableEq, Repr

/-- Row of the phone_numbers table (src/models.py, class PhoneNumber). -/
structure PhoneNumber where
  id : Nat
  number : NumberValue
  organization_id : Nat
  deriving DecidableEq, Repr

/-- Row of the activities table (src/models.py, class Activity).  The level
column is declared `nullable=False`, but a freshly constructed ORM object
has the attribute unset, which is modelled as `none`. -/
structure Activity where
  id : Nat
  name : String
  parent_id : Option Nat
  level : Option Int
  deriving DecidableEq, Repr

/-- Row of the organization_activities join table (src/models.py, class
OrganizationActivity); the pair of columns is the composite primary key. -/
structure OrganizationActivity where
  organization_id : Nat
  activity_id : Nat
  deriving DecidableEq, Repr

/-- Whole database state: one list of rows per table. -/
structure DB where
  buildings : List Building
  organizations : List Organization
  phone_numbers : List PhoneNumber
  activities : List Activity
  organization_activities : List OrganizationActivity
  deriving DecidableEq, Repr

/-- Abstraction of the external phonenumbers library: `parseRU` is
`phonenumbers.parse(value, "RU")` returning `none` on NumberParseException,
`isValidNumber` is `phonenumbers.is_valid_number`, and `formatE164` is
`format_number(..., PhoneNumberFormat.E164)`. -/
structure PhoneLib (P : Type) where
  parseRU : String → Option P
  isValidNumber : P → Bool
  formatE164 : P → String

variable {P : Type}

/-- PhoneNumber.validate_number in src/models.py: the `@validates` hook on
the ORM column formats the parsed number, and on NumberParseException
returns the Python literal False, which becomes the stored value. -/
def orm_validate_number (lib : PhoneLib P) (value : String) : NumberValue :=
  match lib.parseRU value with
  | some parsed => NumberValue.str (lib.formatE164 parsed)
  | none => NumberValue.pyFalse

/-- PhoneNumberModel.validate_number in src/models.py lines 87-95, a bare
pydantic @field_validator and therefore registered: numbers that fail to
parse or are invalid are rejected with a validation error, valid ones are
normalized to E.164.  The copy in src/schemas.py lines 9-18 wraps the same
function in @classmethod placed above @field_validator, which pydantic v2
silently ignores (classmethod is among its default ignored types), so that
copy never runs; see api_phone_boundary. -/
def pydantic_validate_number (lib : PhoneLib P) (value : String) : Except String String :=
  match lib.parseRU value with
  | some parsed =>
    if lib.isValidNumber parsed then Except.ok (lib.formatE164 parsed)
    else Except.error "Неверный формат номера телефона"
  | none => Except.error "Неверный формат номера телефона"

/-- Phone number payload element (class PhoneNumberModel): `number` holds
the payload string — the output of `pydantic_validate_number` on the
main.py path, and the raw client string on the api router path, whose
validator is unregistered. -/
structure PhoneNumberModel where
  number : String
  deriving DecidableEq, Repr

/-- FastAPI boundary validation of a phone_numbers payload on the main.py
path, whose request models come from src/models.py: every element must pass
the registered pydantic validator, otherwise the request is rejected before
any handler runs.  The api router path performs no such check; see
api_phone_boundary. -/
def parse_phone_list (lib : PhoneLib P) : List String → Except String (List PhoneNumberModel)
  | [] => Except.ok []
  | r :: rs =>
    match pydantic_validate_number lib r with
    | Except.error e => Except.error e
    | Except.ok n =>
      match parse_phone_list lib rs with
      | Except.error e => Except.error e
      | Except.ok ms => Except.ok ({ number := n } :: ms)

/-- Request body of POST /create_organization/ (class OrganizationCreate). -/
structure OrganizationCreate where
  name : String
  building_id : Nat
  phone_numbers : List PhoneNumberModel
  activity_ids : List Nat
  deriving DecidableEq, Repr

/-- Request body of PUT /organizations/(id)/ (class OrganizationUpdate):
fields left as `none` are not touched. -/
structure OrganizationUpdate where
  name : Option String
  building_id : Option Nat
  phone_numbers : Option (List PhoneNumberModel)
  activity_ids : Option (List Nat)
  deriving DecidableEq, Repr

/-- Request body of POST /create_building/ and PUT /buildings/(id)/
(class BuildingCreate). -/
structure BuildingCreate where
  address : String
  latitude : Int
  longitude : Int
  deriving DecidableEq, Repr

/-- Observable outcome of a handler call. -/
inductive ApiResult (α : Type) where
  | ok (value : α)
  | notFound (message : String)
  | badRequest (message : String)
  | serverError (message : String)
  deriving DecidableEq, Repr

/-- Message produced by handle_exception wrapping the text of the caught
exception. -/
def wrapErr (s : String) : String :=
  "Произошла неизвестная ошибка: " ++ s

/-- Activity.validate_level in src/models.py: the `@validates` hook rejects
a level above three.  It fires only when the attribute is assigned, and no
handler in the repository ever assigns the attribute, so it is never invoked
on any request path. -/
def validate_level (level : Int) : Except String Int :=
  if level > 3 then Except.error "Максимальный уровень вложенности деятельности - 3"
  else Except.ok level

/-- Largest id in use; the next autoincrement value is this plus one. -/
def maxId (ids : List Nat) : Nat := ids.foldr max 0

/-- Constraints the backing store checks when a session flushes: primary
keys are unique, buildings.address and activities.name are unique columns,
and activities.level is NOT NULL.  (Foreign keys are not enforced, matching
the SQLite default.) -/
def dbOk (db : DB) : Bool :=
  decide ((db.buildings.map Building.id).Nodup) &&
  decide ((db.buildings.map Building.address).Nodup) &&
  decide ((db.organizations.map Organization.id).Nodup) &&
  decide ((db.phone_numbers.map PhoneNumber.id).Nodup) &&
  decide ((db.activities.map Activity.id).Nodup) &&
  decide ((db.activities.map Activity.name).Nodup) &&
  db.activities.all (fun a => a.level.isSome) &&
  decide ((db.organization_activities.map
    (fun oa => (oa.organization_id, oa.activity_id))).Nodup)

/-- GET /organizations/by_building_address/ (src/main.py lines 37-55 and
src/src/api/organizations.py lines 18-36): exact match on Building.address,
404 when no building matches, 404 when the building has no organizations,
otherwise the list of organization names.  A pure read. -/
def get_organizations_by_building_address (db : DB) (address : String) :
    ApiResult (List String) :=
  match db.buildings.find? (fun b => b.address == address) with
  | none => ApiResult.notFound "Здание не найдено"
  | some building =>
    let organizations := db.organizations.filter (fun o => o.building_id == building.id)
    if organizations.isEmpty then ApiResult.notFound "Организация не найдена"
    else ApiResult.ok (organizations.map Organization.name)

/-- POST /create_building/ (src/main.py lines 182-200, src/src/api/buildings.py
lines 23-42): duplicate-address pre-check raising HTTPException 400 (caught by
the handler's own except clause and re-surfaced wrapped), then insert and
commit. -/
def create_building (db : DB) (building : BuildingCreate) :
    ApiResult Nat × DB :=
  if (db.buildings.find? (fun b => b.address == building.address)).isSome then
    (ApiResult.serverError (wrapErr "400: Здание уже существует"), db)
  else
    let newB : Building :=
      { id := maxId (db.buildings.map Building.id) + 1,
        address := building.address,
        latitude := building.latitude,
        longitude := building.longitude }
    let staged : DB := { db with buildings := db.buildings ++ [newB] }
    if dbOk staged then (ApiResult.ok newB.id, staged)
    else (ApiResult.serverError (wrapErr "IntegrityError"), db)

/-- PUT /buildings/(id)/ (src/main.py lines 321-342, src/src/api/buildings.py
lines 45-67): full replace of address and coordinates with no duplicate-address
pre-check; the not-found HTTPException raised inside try is re-surfaced
wrapped, and a unique-constraint violation at commit rolls back. -/
def update_building (db : DB) (building_id : Nat) (building : BuildingCreate) :
    ApiResult (Nat × String) × DB :=
  match db.buildings.find? (fun b => b.id == building_id) with
  | none => (ApiResult.serverError (wrapErr "404: Здание не найдено"), db)
  | some _ =>
    let staged : DB :=
      { db with buildings := db.buildings.map (fun b =>
          if b.id == building_id then
            { b with address := building.address,
                     latitude := building.latitude,
                     longitude := building.longitude }
          else b) }
    if dbOk staged then
      (ApiResult.ok (building_id, building.address), staged)
    else (ApiResult.serverError (wrapErr "IntegrityError"), db)

/-- Insertion step shared by both create_activity handlers: the source
constructs `Activity(name=name, parent_id=parent_id)` and never passes a
level, so the NOT NULL level column stays unset (`none`) and the commit
raises an integrity error, after which the handler rolls back. -/
def insert_activity (db : DB) (name : String) (parent_id : Option Nat) :
    ApiResult (Nat × String) × DB :=
  let newAct : Activity :=
    { id := maxId (db.activities.map Activity.id) + 1,
      name := name, parent_id := parent_id, level := none }
  let staged : DB := { db with activities := db.activities ++ [newAct] }
  if dbOk staged then (ApiResult.ok (newAct.id, newAct.name), staged)
  else (ApiResult.serverError (wrapErr "IntegrityError"), db)

/-- POST /activities/ in src/main.py (lines 244-265): when a parent id is
given and the parent exists, a parent level of three or more is rejected with
a plain JSONResponse 400; a missing parent is not checked.  Comparing a NULL
level with 3 raises a TypeError in Python, surfacing as a wrapped 500. -/
def main_create_activity (db : DB) (name : String) (parent_id : Option Nat) :
    ApiResult (Nat × String) × DB :=
  match parent_id with
  | some pid =>
    match db.activities.find? (fun a => a.id == pid) with
    | some parent =>
      match parent.level with
      | some l =>
        if l ≥ 3 then
          (ApiResult.badRequest "Нельзя создать активность глубиной больше трёх", db)
        else insert_activity db name parent_id
      | none => (ApiResult.serverError (wrapErr "TypeError"), db)
    | none => insert_activity db name parent_id
  | none => insert_activity db name parent_id

/-- POST /activities/ in src/src/api/activities.py (lines 24-50): a missing
parent raises HTTPException 400 "parent not found", a parent level of three
or more raises HTTPException 400 "max depth"; both are caught by the
handler's own except clause and re-surfaced wrapped by handle_exception. -/
def api_create_activity (db : DB) (name : String) (parent_id : Option Nat) :
    ApiResult (Nat × String) × DB :=
  match parent_id with
  | some pid =>
    match db.activities.find? (fun a => a.id == pid) with
    | none =>
      (ApiResult.serverError (wrapErr "400: Под такой ID нет родительской активности"), db)
    | some parent =>
      match parent.level with
      | some l =>
        if l ≥ 3 then
          (ApiResult.serverError (wrapErr "400: Нельзя создать активность глубиной больше трёх"), db)
        else insert_activity db name parent_id
      | none => insert_activity db name parent_id
  | none => insert_activity db name parent_id

/-- Autoincrement insertion of phone rows, one at a time in payload order,
mirroring the loop of `db.add(PhoneNumber(...))` calls: each new row gets the
next free id and the organization id of the enclosing organization. -/
def addPhones (oid : Nat) : List NumberValue → List PhoneNumber → List PhoneNumber
  | [], phones => phones
  | n :: ns, phones =>
    addPhones oid ns
      (phones ++ [{ id := maxId (phones.map PhoneNumber.id) + 1,
                    number := n, organization_id := oid }])

/-- Join rows staged by the activity_ids loop: each id is looked up and ids
that resolve to no Activity are silently skipped. -/
def resolveActivityRows (db : DB) (oid : Nat) (ids : List Nat) :
    List OrganizationActivity :=
  ids.filterMap (fun aid =>
    match db.activities.find? (fun a => a.id == aid) with
    | some a => some { organization_id := oid, activity_id := a.id }
    | none => none)

/-- POST /create_organization/ (src/main.py lines 203-241,
src/src/api/organizations.py lines 163-201).  The handler commits TWICE:
once right after inserting the organization row, and again after staging the
phone rows and join rows; a failure in the second phase rolls back only to
the state of the first commit. -/
def create_organization (lib : PhoneLib P) (db : DB) (c : OrganizationCreate) :
    ApiResult (Nat × String) × DB :=
  if (db.organizations.find? (fun o => o.name == c.name)).isSome then
    (ApiResult.serverError (wrapErr "400: Организация с таким именем уже существует"), db)
  else if (db.buildings.find? (fun b => b.id == c.building_id)).isNone then
    (ApiResult.notFound "Здание не найдено", db)
  else
    let oid := maxId (db.organizations.map Organization.id) + 1
    let newOrg : Organization := { id := oid, name := c.name, building_id := c.building_id }
    let staged1 : DB := { db with organizations := db.organizations ++ [newOrg] }
    if dbOk staged1 then
      let committed := staged1
      let staged2 : DB :=
        { committed with
          phone_numbers :=
            addPhones oid (c.phone_numbers.map (fun m => orm_validate_number lib m.number))
              committed.phone_numbers,
          organization_activities :=
            committed.organization_activities ++ resolveActivityRows db oid c.activity_ids }
      if dbOk staged2 then (ApiResult.ok (oid, c.name), staged2)
      else (ApiResult.serverError (wrapErr "IntegrityError"), committed)
    else (ApiResult.serverError (wrapErr "IntegrityError"), db)

/-- PUT /organizations/(id)/ (src/main.py lines 268-318,
src/src/api/organizations.py lines 204-256): partial update; a non-null
phone_numbers list deletes every phone row of the organization and inserts
the supplied set, a non-null activity_ids list does the same full replace on
the join rows, skipping unresolvable ids.  HTTPExceptions raised inside try
are re-surfaced wrapped. -/
def update_organization (lib : PhoneLib P) (db : DB) (org_id : Nat)
    (u : OrganizationUpdate) : ApiResult (Nat × String) × DB :=
  match db.organizations.find? (fun o => o.id == org_id) with
  | none => (ApiResult.serverError (wrapErr "404: Организация не найдена"), db)
  | some existing =>
    let o1 := match u.name with
      | some n => { existing with name := n }
      | none => existing
    let buildingOk : Bool := match u.building_id with
      | some bid => (db.buildings.find? (fun b => b.id == bid)).isSome
      | none => true
    if buildingOk then
      let o2 := match u.building_id with
        | some bid => { o1 with building_id := bid }
        | none => o1
      let phones1 := match u.phone_numbers with
        | some ms =>
          addPhones org_id (ms.map (fun m => orm_validate_number lib m.number))
            (db.phone_numbers.filter (fun p => !(p.organization_id == org_id)))
        | none => db.phone_numbers
      let acts1 := match u.activity_ids with
        | some ids =>
          db.organization_activities.filter (fun oa => !(oa.organization_id == org_id))
            ++ resolveActivityRows db org_id ids
        | none => db.organization_activities
      let staged : DB :=
        { db with
          organizations := db.organizations.map (fun o => if o.id == org_id then o2 else o),
          phone_numbers := phones1,
          organization_activities := acts1 }
      if dbOk staged then (ApiResult.ok (o2.id, o2.name), staged)
      else (ApiResult.serverError (wrapErr "IntegrityError"), db)
    else (ApiResult.serverError (wrapErr "400: Здание не найдено"), db)

/-- DELETE /organizations/(id)/ (src/main.py lines 345-360,
src/src/api/organizations.py lines 259-274).  `session.delete(organization)`
cascades the phone rows (the phone_numbers relationship declares
`cascade="all, delete-orphan"`), but the activities relationship declares no
delete cascade, so when join rows exist the flush tries to null out their
organization_id — a primary-key column — and SQLAlchemy aborts the flush
("Dependency rule tried to blank-out primary key column"); the handler's
except clause rolls back, leaving every row in place. -/
def delete_organization (db : DB) (org_id : Nat) : ApiResult String × DB :=
  match db.organizations.find? (fun o => o.id == org_id) with
  | none => (ApiResult.serverError (wrapErr "404: Организация не найдена"), db)
  | some _ =>
    if (db.organization_activities.filter
          (fun oa => oa.organization_id == org_id)).isEmpty then
      let staged : DB :=
        { db with
          organizations := db.organizations.filter (fun o => !(o.id == org_id)),
          phone_numbers := db.phone_numbers.filter (fun p => !(p.organization_id == org_id)) }
      if dbOk staged then (ApiResult.ok "Организация успешно удалена", staged)
      else (ApiResult.serverError (wrapErr "IntegrityError"), db)
    else
      (ApiResult.serverError
        (wrapErr "AssertionError: Dependency rule tried to blank-out primary key column"), db)

/-- Recursive helper find_subactivities of GET /organizations/search_by_activity/
(src/main.py lines 132-140, src/src/api/organizations.py lines 113-121): the
current activity is appended to the visited list, its children are fetched by
parent_id, and the recursion continues while the level counter (starting at 1
for the root) is at most 3.  There is no visited set. -/
def find_subactivities (db : List Activity) (activity : Activity) (level : Nat) :
    List Activity :=
  activity ::
    (if h : level ≤ 3 then
      (db.filter (fun c => c.parent_id == some activity.id)).flatMap
        (fun c => find_subactivities db c (level + 1))
    else [])
termination_by 4 - level
decreasing_by omega

/-- Activities collected by the subtree walk of search_organizations_by_activity:
the root is resolved by exact name and walked from level 1; with no root the
list stays empty. -/
def visited_activities (db : DB) (activity_name : String) : List Activity :=
  match db.activities.find? (fun a => a.name == activity_name) with
  | some root => find_subactivities db.activities root 1
  | none => []

/-- Organizations accumulated into the Python set during
search_organizations_by_activity: for every visited activity, each join row
pointing at it contributes its organization (the identity-mapped row with
that id); the set is modelled as a deduplicated list. -/
def subtree_organizations (db : DB) (activity_name : String) : List Organization :=
  ((visited_activities db activity_name).flatMap (fun a =>
    (db.organization_activities.filter (fun oa => oa.activity_id == a.id)).filterMap
      (fun oa => db.organizations.find? (fun o => o.id == oa.organization_id)))).dedup

/-- GET /organizations/search_by_activity/ (src/main.py lines 128-161,
src/src/api/organizations.py lines 109-142): an empty result set is a 404,
otherwise the names of the collected organizations are returned. -/
def search_organizations_by_activity (db : DB) (activity_name : String) :
    ApiResult (List String) :=
  let organizations := subtree_organizations db activity_name
  if organizations.isEmpty then ApiResult.notFound "Организаций не найдено"
  else ApiResult.ok (organizations.map Organization.name)

/-- Parent-to-child reachability in exactly k steps along the stored
parent_id edges: each step moves to a row of the activities table whose
parent_id equals the id of the current activity. -/
inductive Reaches (db : List Activity) : Activity → Activity → Nat → Prop
  | refl (a : Activity) : Reaches db a a 0
  | step (a c x : Activity) (k : Nat) (hc : c ∈ db) (hp : c.parent_id = some a.id)
      (h : Reaches db c x k) : Reaches db a x (k + 1)

/-- Level stored on an activity, with NULL read as zero. -/
def lev (a : Activity) : Int := a.level.getD 0

/-- Invariant the spec maintains on the activity table: every stored child's
level is one more than its parent's level. -/
def ParentLevels (db : List Activity) : Prop :=
  ∀ a ∈ db, ∀ c ∈ db, c.parent_id = some a.id → lev c = lev a + 1

/-- Unfolding equation of the traversal in if-then-else form. -/
theorem find_subactivities_def (db : List Activity) (a : Activity) (L : Nat) :
    find_subactivities db a L =
      a :: (if L ≤ 3 then
              (db.filter (fun c => c.parent_id == some a.id)).flatMap
                (fun c => find_subactivities db c (L + 1))
            else []) := by
  rw [find_subactivities]
  by_cases h : L ≤ 3 <;> simp [h]

/-- Membership in the visited list: the activity itself, or a visit reached
through one of its stored children while the level counter allows it. -/
theorem mem_find_subactivities {db : List Activity} {a x : Activity} {L : Nat} :
    x ∈ find_subactivities db a L ↔
      x = a ∨ (L ≤ 3 ∧ ∃ c, c ∈ db ∧ c.parent_id = some a.id ∧
        x ∈ find_subactivities db c (L + 1)) := by
  rw [find_subactivities_def]
  by_cases h : L ≤ 3 <;>
    simp [h, List.mem_flatMap, List.mem_filter, beq_iff_eq, and_assoc]

/-- Every visited activity is reachable from the start of the walk in at
most 4 - L steps; this is the depth cap and it needs no acyclicity. -/
theorem find_subactivities_reaches {db : List Activity} :
    ∀ (fuel L : Nat), 4 - L = fuel → ∀ (a x : Activity),
      x ∈ find_subactivities db a L → ∃ k, k ≤ fuel ∧ Reaches db a x k := by
  intro fuel
  induction fuel with
  | zero =>
    intro L hL a x hx
    rcases mem_find_subactivities.1 hx with rfl | ⟨h3, _, _⟩
    · exact ⟨0, Nat.le_refl 0, Reaches.refl _⟩
    · omega
  | succ n ih =>
    intro L hL a x hx
    rcases mem_find_subactivities.1 hx with rfl | ⟨h3, c, hc, hp, hxc⟩
    · exact ⟨0, Nat.zero_le _, Reaches.refl _⟩
    · obtain ⟨k, hk, hr⟩ := ih (L + 1) (by omega) c x hxc
      exact ⟨k + 1, by omega, Reaches.step a c x k hc hp hr⟩

/-- Under the level invariant, a k-step descendant of a stored activity is
stored and sits exactly k levels below it. -/
theorem reaches_lev {db : List Activity} (hinc : ParentLevels db) :
    ∀ {a x : Activity} {k : Nat}, Reaches db a x k → a ∈ db →
      x ∈ db ∧ lev x = lev a + (k : Int) := by
  intro a x k h
  induction h with
  | refl a => intro ha; exact ⟨ha, by simp⟩
  | step a c x k hc hp _ ih =>
    intro ha
    obtain ⟨hx, hlev⟩ := ih hc
    have hstep : lev c = lev a + 1 := hinc a ha c hc hp
    refine ⟨hx, ?_⟩
    rw [hlev, hstep]
    push_cast
    ring

/-- With distinct ids, a fixed-length descent chain to a given activity has a
unique starting point: each row has one parent_id, so the chain is forced. -/
theorem reaches_unique {db : List Activity} (hid : (db.map Activity.id).Nodup) :
    ∀ {k : Nat} {a b x : Activity}, Reaches db a x k → Reaches db b x k →
      a ∈ db → b ∈ db → a = b := by
  intro k
  induction k with
  | zero =>
    intro a b x h1 h2 _ _
    cases h1
    cases h2
    rfl
  | succ n ih =>
    intro a b x h1 h2 ha hb
    cases h1 with
    | step _ c _ _ hc hp hr =>
      cases h2 with
      | step _ c2 _ _ hc2 hp2 hr2 =>
        have hcc : c = c2 := ih hr hr2 hc hc2
        subst hcc
        have hide : a.id = b.id := Option.some.inj (hp.symm.trans hp2)
        exact List.inj_on_of_nodup_map hid ha hb hide

/-- Fuel-indexed form of the at-most-once property: with distinct ids and
the level invariant the visited list of a stored activity has no
duplicates. -/
theorem find_subactivities_nodup_aux {db : List Activity}
    (hid : (db.map Activity.id).Nodup) (hinc : ParentLevels db) :
    ∀ (fuel L : Nat), 4 - L = fuel → ∀ a ∈ db, (find_subactivities db a L).Nodup := by
  intro fuel
  induction fuel with
  | zero =>
    intro L hL a _
    rw [find_subactivities_def]
    simp [show ¬ L ≤ 3 by omega]
  | succ n ih =>
    intro L hL a ha
    rw [find_subactivities_def]
    by_cases h3 : L ≤ 3
    case neg => simp [h3]
    case pos =>
      simp only [h3, if_true]
      rw [List.nodup_cons]
      constructor
      · intro hmem
        rw [List.mem_flatMap] at hmem
        obtain ⟨c, hcmem, hsub⟩ := hmem
        rw [List.mem_filter] at hcmem
        obtain ⟨hcdb, hcpb⟩ := hcmem
        have hcp : c.parent_id = some a.id := by simpa [beq_iff_eq] using hcpb
        obtain ⟨k, _, hr⟩ := find_subactivities_reaches (4 - (L + 1)) (L + 1) rfl c a hsub
        obtain ⟨_, hlev⟩ := reaches_lev hinc hr hcdb
        have hstep : lev c = lev a + 1 := hinc a ha c hcdb hcp
        omega
      · rw [List.nodup_flatMap]
        refine ⟨?_, ?_⟩
        · intro c hcmem
          rw [List.mem_filter] at hcmem
          exact ih (L + 1) (by omega) c hcmem.1
        · have hnd : (db.filter (fun c => c.parent_id == some a.id)).Nodup :=
            (List.Nodup.of_map Activity.id hid).filter _
          refine List.Pairwise.imp_of_mem ?_ hnd
          intro c1 c2 hc1 hc2 hne
          intro x hx1 hx2
          rw [List.mem_filter] at hc1 hc2
          obtain ⟨hc1db, hp1b⟩ := hc1
          obtain ⟨hc2db, hp2b⟩ := hc2
          have hp1 : c1.parent_id = some a.id := by simpa [beq_iff_eq] using hp1b
          have hp2 : c2.parent_id = some a.id := by simpa [beq_iff_eq] using hp2b
          obtain ⟨k1, _, hr1⟩ :=
            find_subactivities_reaches (4 - (L + 1)) (L + 1) rfl c1 x hx1
          obtain ⟨k2, _, hr2⟩ :=
            find_subactivities_reaches (4 - (L + 1)) (L + 1) rfl c2 x hx2
          obtain ⟨_, hl1⟩ := reaches_lev hinc hr1 hc1db
          obtain ⟨_, hl2⟩ := reaches_lev hinc hr2 hc2db
          have e1 : lev c1 = lev a + 1 := hinc a ha c1 hc1db hp1
          have e2 : lev c2 = lev a + 1 := hinc a ha c2 hc2db hp2
          have hk : k1 = k2 := by omega
          subst hk
          exact hne (reaches_unique hid hr1 hr2 hc1db hc2db)

/-- At-most-once visits for a stored root under the table invariants. -/
theorem find_subactivities_nodup {db : List Activity}
    (hid : (db.map Activity.id).Nodup) (hinc : ParentLevels db)
    {a : Activity} (ha : a ∈ db) : (find_subactivities db a 1).Nodup :=
  find_subactivities_nodup_aux hid hinc 3 1 rfl a ha

/-- The organization accumulator is the deduplicated union over the visited
activities of the organizations their join rows point at. -/
theorem mem_subtree_organizations {db : DB} {nm : String} {o : Organization} :
    o ∈ subtree_organizations db nm ↔
      ∃ a, a ∈ visited_activities db nm ∧ ∃ oa, oa ∈ db.organization_activities ∧
        oa.activity_id = a.id ∧
        db.organizations.find? (fun g => g.id == oa.organization_id) = some o := by
  unfold subtree_organizations
  rw [List.mem_dedup, List.mem_flatMap]
  simp [List.mem_filterMap, List.mem_filter, beq_iff_eq, and_assoc]

/-- C1 (amended): for a root resolved by exact name, the subtree search
never explores more than 3 additional levels below the root — every visited
activity is a descendant within 3 parent-edge steps, even if cyclic
parent_id data were injected — and it visits each activity at most once
whenever the activity ids are distinct and levels obey the parent + 1
invariant (cyclic data can be revisited, see the counterexample); the result
is the deduplicated-by-identity union of the organizations directly linked
to any visited activity. -/
theorem subtree_search_depth_cap_and_dedup (db : DB) (nm : String) (root : Activity)
    (hroot : db.activities.find? (fun a => a.name == nm) = some root) :
    (∀ x ∈ visited_activities db nm, ∃ k, k ≤ 3 ∧ Reaches db.activities root x k)
    ∧ ((db.activities.map Activity.id).Nodup → ParentLevels db.activities →
        (visited_activities db nm).Nodup)
    ∧ (subtree_organizations db nm).Nodup
    ∧ (∀ o : Organization, o ∈ subtree_organizations db nm ↔
        ∃ a, a ∈ visited_activities db nm ∧ ∃ oa, oa ∈ db.organization_activities ∧
          oa.activity_id = a.id ∧
          db.organizations.find? (fun g => g.id == oa.organization_id) = some o) := by
  have hv : visited_activities db nm = find_subactivities db.activities root 1 := by
    unfold visited_activities
    rw [hroot]
  refine ⟨?_, ?_, List.nodup_dedup _, fun o => mem_subtree_organizations⟩
  · intro x hx
    rw [hv] at hx
    exact find_subactivities_reaches 3 1 rfl root x hx
  · intro hid hinc
    rw [hv]
    exact find_subactivities_nodup hid hinc (List.mem_of_find?_eq_some hroot)

/-- Self-parent activity used to inject a cycle into the activities table. -/
def loopA : Activity := { id := 1, name := "A", parent_id := some 1, level := some 1 }

/-- C1 counterexample: with a cyclic parent_id row the walk has no visited
set, so the same activity is appended on every level until the depth cap
stops the recursion — it is visited more than once, refuting the claim that
each activity is visited at most once even under cyclic data. -/
theorem subtree_search_cycle_counterexample :
    ¬ (find_subactivities [loopA] loopA 1).Nodup := by
  have hfil : [loopA].filter (fun c => c.parent_id == some loopA.id) = [loopA] := rfl
  have h4 : find_subactivities [loopA] loopA 4 = [loopA] := by
    rw [find_subactivities_def]
    simp
  have h3 : find_subactivities [loopA] loopA 3 = [loopA, loopA] := by
    rw [find_subactivities_def, if_pos (by omega : (3 : Nat) ≤ 3), hfil]
    simp [h4]
  have h2 : find_subactivities [loopA] loopA 2 = [loopA, loopA, loopA] := by
    rw [find_subactivities_def, if_pos (by omega : (2 : Nat) ≤ 3), hfil]
    simp [h3]
  have h1 : find_subactivities [loopA] loopA 1 = [loopA, loopA, loopA, loopA] := by
    rw [find_subactivities_def, if_pos (by omega : (1 : Nat) ≤ 3), hfil]
    simp [h2]
  rw [h1]
  decide

/-- Root activity of the witness database. -/
def foodW : Activity := { id := 1, name := "Food", parent_id := none, level := some 1 }

/-- Child activity of the witness database. -/
def bakeryW : Activity := { id := 2, name := "Bakery", parent_id := some 1, level := some 2 }

/-- Organization of the witness database, linked to the child activity. -/
def breadCoW : Organization := { id := 1, name := "Bread Co", building_id := 1 }

/-- Witness database: one building, one organization associated with the
child activity of a two-level taxonomy. -/
def dbC1W : DB :=
  { buildings := [{ id := 1, address := "Lenina 1", latitude := 55, longitude := 37 }],
    organizations := [breadCoW],
    phone_numbers := [],
    activities := [foodW, bakeryW],
    organization_activities := [{ organization_id := 1, activity_id := 2 }] }

/-- Witness for the amended C1 theorem at a concrete database. -/
theorem subtree_search_witness :
    (∃ k, k ≤ 3 ∧ Reaches dbC1W.activities foodW bakeryW k)
    ∧ (visited_activities dbC1W "Food").Nodup
    ∧ breadCoW ∈ subtree_organizations dbC1W "Food" := by
  have h := subtree_search_depth_cap_and_dedup dbC1W "Food" foodW rfl
  have hv : visited_activities dbC1W "Food" =
      find_subactivities dbC1W.activities foodW 1 := rfl
  have hbak : bakeryW ∈ visited_activities dbC1W "Food" := by
    rw [hv, mem_find_subactivities]
    right
    refine ⟨by omega, bakeryW, by decide, rfl, ?_⟩
    rw [mem_find_subactivities]
    left
    rfl
  refine ⟨h.1 bakeryW hbak, h.2.1 (by decide) (by unfold ParentLevels; decide), ?_⟩
  exact (h.2.2.2 breadCoW).mpr
    ⟨bakeryW, hbak, { organization_id := 1, activity_id := 2 }, by decide, rfl, rfl⟩

/-- Staged activity inserts always fail: the handlers never assign the
level attribute, the column is NOT NULL, so the commit raises and the
handler rolls back. -/
theorem insert_activity_fails (db : DB) (nm : String) (pid : Option Nat) :
    insert_activity db nm pid = (ApiResult.serverError (wrapErr "IntegrityError"), db) := by
  have h : dbOk { db with activities := db.activities ++
      [{ id := maxId (db.activities.map Activity.id) + 1, name := nm,
         parent_id := pid, level := none }] } = false := by
    unfold dbOk
    simp [List.all_append]
  simp [insert_activity, h]

/-- C2: no request can ever create an Activity row, because create_activity
constructs the ORM object without a level: the NOT NULL constraint on
activities.level fails at commit and the transaction rolls back, in both
the src/main.py and the src/src/api/activities.py version of the handler.
In particular no created activity ever carries level parent + 1 or 1. -/
theorem create_activity_never_sets_level (db : DB) (nm : String) (pid : Option Nat) :
    (main_create_activity db nm pid).2 = db
    ∧ (∀ v, (main_create_activity db nm pid).1 ≠ ApiResult.ok v)
    ∧ (api_create_activity db nm pid).2 = db
    ∧ (∀ v, (api_create_activity db nm pid).1 ≠ ApiResult.ok v) := by
  have hm : (main_create_activity db nm pid).2 = db
      ∧ ∀ v, (main_create_activity db nm pid).1 ≠ ApiResult.ok v := by
    unfold main_create_activity
    repeat' split
    all_goals first
      | (rw [insert_activity_fails]; exact ⟨rfl, fun v h => ApiResult.noConfusion h⟩)
      | exact ⟨rfl, fun v h => ApiResult.noConfusion h⟩
  have ha : (api_create_activity db nm pid).2 = db
      ∧ ∀ v, (api_create_activity db nm pid).1 ≠ ApiResult.ok v := by
    unfold api_create_activity
    repeat' split
    all_goals first
      | (rw [insert_activity_fails]; exact ⟨rfl, fun v h => ApiResult.noConfusion h⟩)
      | exact ⟨rfl, fun v h => ApiResult.noConfusion h⟩
  exact ⟨hm.1, hm.2, ha.1, ha.2⟩

/-- Activity table used to exercise the error branches of create_activity. -/
def rootAct : Activity := { id := 1, name := "Root", parent_id := none, level := some 1 }

/-- Activity at the depth cap. -/
def deepAct : Activity := { id := 2, name := "Deep", parent_id := none, level := some 3 }

/-- Database for the create_activity branch evaluation. -/
def dbC4 : DB :=
  { buildings := [], organizations := [], phone_numbers := [],
    activities := [rootAct, deepAct], organization_activities := [] }

/-- C4: the api router version of create_activity rejects a missing parent
("parent not found") and a parent at level 3 ("max depth"), both surfacing
wrapped by the handler's own exception catch; but the otherwise-branch does
NOT insert the new activity — the insert dies on the never-assigned NOT NULL
level column and the handler answers 500 with the database unchanged. -/
theorem create_activity_error_paths :
    api_create_activity dbC4 "X" (some 99)
      = (ApiResult.serverError (wrapErr "400: Под такой ID нет родительской активности"), dbC4)
    ∧ api_create_activity dbC4 "X" (some 2)
      = (ApiResult.serverError (wrapErr "400: Нельзя создать активность глубиной больше трёх"), dbC4)
    ∧ api_create_activity dbC4 "X" (some 1)
      = (ApiResult.serverError (wrapErr "IntegrityError"), dbC4) := by
  refine ⟨by decide, by decide, by decide⟩

/-- Toy instantiation of the external phone library, used by concrete
evaluations: parsing accepts any non-empty string unchanged. -/
def toyParse (s : String) : Option String := if s = "" then none else some s

/-- Toy phone library record. -/
def toyLib : PhoneLib String :=
  { parseRU := toyParse, isValidNumber := fun _ => true, formatE164 := fun p => p }

/-- Database for the atomicity evaluation: one building, one activity. -/
def dbC3 : DB :=
  { buildings := [{ id := 1, address := "Lenina 1", latitude := 55, longitude := 37 }],
    organizations := [], phone_numbers := [],
    activities := [{ id := 1, name := "Food", parent_id := none, level := some 1 }],
    organization_activities := [] }

/-- Payload whose duplicated activity id makes the second commit fail on the
composite primary key of organization_activities. -/
def orgPayloadC3 : OrganizationCreate :=
  { name := "Bread Co", building_id := 1, phone_numbers := [], activity_ids := [1, 1] }

/-- C3: create_organization is not atomic.  The handler commits the
organization row on its own, then stages phones and join rows and commits
again; when the second commit fails (duplicate activity id in the payload)
the rollback only reaches the first commit, so the call reports a 500 while
the orphaned organization row persists with no associations. -/
theorem create_organization_not_atomic :
    (create_organization toyLib dbC3 orgPayloadC3).1
        = ApiResult.serverError (wrapErr "IntegrityError")
    ∧ (create_organization toyLib dbC3 orgPayloadC3).2.organizations
        = [{ id := 1, name := "Bread Co", building_id := 1 }]
    ∧ (create_organization toyLib dbC3 orgPayloadC3).2.organization_activities = []
    ∧ dbC3.organizations = [] := by
  refine ⟨by decide, by decide, by decide, rfl⟩

/-- Database for the delete evaluation: two organizations with one phone
each; the first organization also has an activity association. -/
def dbC5 : DB :=
  { buildings := [{ id := 1, address := "Lenina 1", latitude := 55, longitude := 37 }],
    organizations := [{ id := 1, name := "Alpha", building_id := 1 },
                      { id := 2, name := "Beta", building_id := 1 }],
    phone_numbers := [{ id := 1, number := NumberValue.str "+79990000001", organization_id := 1 },
                      { id := 2, number := NumberValue.str "+79990000002", organization_id := 2 }],
    activities := [{ id := 1, name := "Food", parent_id := none, level := some 1 }],
    organization_activities := [{ organization_id := 1, activity_id := 1 }] }

/-- C5: deleting an organization that has activity associations fails
outright — the activities relationship has no delete cascade, so the flush
tries to blank out the join rows' primary-key column and aborts, leaving
every row (organization, phones, join rows) in place; only an organization
with no associations is deleted, and then its phones are cascaded while the
buildings and activities tables stay untouched. -/
theorem delete_organization_assoc_blankout :
    delete_organization dbC5 1
      = (ApiResult.serverError
          (wrapErr "AssertionError: Dependency rule tried to blank-out primary key column"),
         dbC5)
    ∧ delete_organization dbC5 2
      = (ApiResult.ok "Организация успешно удалена",
         { dbC5 with
             organizations := [{ id := 1, name := "Alpha", building_id := 1 }],
             phone_numbers := [{ id := 1, number := NumberValue.str "+79990000001",
                                 organization_id := 1 }] })
    ∧ (delete_organization dbC5 2).2.buildings = dbC5.buildings
    ∧ (delete_organization dbC5 2).2.activities = dbC5.activities := by
  refine ⟨by decide, by decide, by decide, by decide⟩

/-- Database with two buildings for the duplicate-address evaluation. -/
def dbC10 : DB :=
  { buildings := [{ id := 1, address := "A st", latitude := 0, longitude := 0 },
                  { id := 2, address := "B st", latitude := 0, longitude := 0 }],
    organizations := [], phone_numbers := [], activities := [],
    organization_activities := [] }

/-- C10: only create_building performs the duplicate-address pre-check and
rejects with the domain "already exists" message; update_building applies
the new address with no such check, so renaming building 1 to building 2's
address sails past the handler and dies only on the store's unique
constraint at commit — a different, non-domain rejection. -/
theorem update_building_skips_duplicate_address_check :
    create_building dbC10 { address := "B st", latitude := 5, longitude := 5 }
      = (ApiResult.serverError (wrapErr "400: Здание уже существует"), dbC10)
    ∧ update_building dbC10 1 { address := "B st", latitude := 5, longitude := 5 }
      = (ApiResult.serverError (wrapErr "IntegrityError"), dbC10)
    ∧ wrapErr "IntegrityError" ≠ wrapErr "400: Здание уже существует" := by
  refine ⟨by decide, by decide, by decide⟩

/-- C9: lookup by building address matches Building.address exactly and
treats an empty result as an error: 404 when no building has the address,
404 when the building exists but owns no organizations, and a successful
answer is always a non-empty list of the organizations of the matched
building. -/
theorem by_building_address_not_found_semantics (db : DB) (address : String) :
    ((∀ b ∈ db.buildings, b.address ≠ address) →
      get_organizations_by_building_address db address
        = ApiResult.notFound "Здание не найдено")
    ∧ (∀ b, db.buildings.find? (fun x => x.address == address) = some b →
        db.organizations.filter (fun o => o.building_id == b.id) = [] →
        get_organizations_by_building_address db address
          = ApiResult.notFound "Организация не найдена")
    ∧ (∀ names, get_organizations_by_building_address db address = ApiResult.ok names →
        names ≠ [] ∧ ∃ b, db.buildings.find? (fun x => x.address == address) = some b
          ∧ b.address = address
          ∧ names = (db.organizations.filter (fun o => o.building_id == b.id)).map
              Organization.name) := by
  refine ⟨?_, ?_, ?_⟩
  · intro h
    have hnone : db.buildings.find? (fun x => x.address == address) = none := by
      rw [List.find?_eq_none]
      intro b hb
      simp only [beq_iff_eq]
      exact h b hb
    unfold get_organizations_by_building_address
    rw [hnone]
  · intro b hfind hempty
    unfold get_organizations_by_building_address
    rw [hfind]
    simp [hempty]
  · intro names h
    unfold get_organizations_by_building_address at h
    split at h
    · exact absurd h (by simp)
    next b hf0 =>
      simp only [List.isEmpty_iff] at h
      split at h
      · exact absurd h (by simp)
      next he =>
        have hmap := ApiResult.ok.inj h
        subst hmap
        refine ⟨?_, b, hf0, by simpa [beq_iff_eq] using List.find?_some hf0, rfl⟩
        simp only [ne_eq, List.map_eq_nil_iff]
        exact he

/-- Witness for the C9 theorem: on the witness database the address lookup
succeeds with the non-empty organization list of the matched building. -/
theorem by_building_address_witness :
    (["Bread Co"] : List String) ≠ []
    ∧ ∃ b, dbC1W.buildings.find? (fun x => x.address == "Lenina 1") = some b
        ∧ b.address = "Lenina 1"
        ∧ ["Bread Co"] = (dbC1W.organizations.filter
            (fun o => o.building_id == b.id)).map Organization.name :=
  (by_building_address_not_found_semantics dbC1W "Lenina 1").2.2 ["Bread Co"] (by decide)

/-- Propositional reading of the commit-time constraint check. -/
theorem dbOk_iff {db : DB} :
    dbOk db = true ↔
      (db.buildings.map Building.id).Nodup ∧
      (db.buildings.map Building.address).Nodup ∧
      (db.organizations.map Organization.id).Nodup ∧
      (db.phone_numbers.map PhoneNumber.id).Nodup ∧
      (db.activities.map Activity.id).Nodup ∧
      (db.activities.map Activity.name).Nodup ∧
      (∀ a ∈ db.activities, a.level.isSome = true) ∧
      (db.organization_activities.map
        (fun oa => (oa.organization_id, oa.activity_id))).Nodup := by
  unfold dbOk
  simp only [Bool.and_eq_true, decide_eq_true_eq, List.all_eq_true]
  tauto

/-- Every id in use is bounded by the autoincrement high-water mark. -/
theorem le_maxId {ids : List Nat} {x : Nat} (h : x ∈ ids) : x ≤ maxId ids := by
  induction ids with
  | nil => cases h
  | cons y ys ih =>
    rcases List.mem_cons.1 h with rfl | hmem
    · exact Nat.le_max_left _ _
    · exact Nat.le_trans (ih hmem) (Nat.le_max_right _ _)

/-- Inserting phone rows for one organization does not change the rows of
the other organizations. -/
theorem addPhones_filter_other (oid : Nat) (ns : List NumberValue) :
    ∀ phones : List PhoneNumber,
      (addPhones oid ns phones).filter (fun p => !(p.organization_id == oid))
        = phones.filter (fun p => !(p.organization_id == oid)) := by
  induction ns with
  | nil => intro phones; rfl
  | cons n ns ih =>
    intro phones
    simp only [addPhones]
    rw [ih, List.filter_append]
    simp

/-- The numbers held for the organization after an insertion run are the
previous ones followed by the inserted ones, in order. -/
theorem addPhones_filter_own_map (oid : Nat) (ns : List NumberValue) :
    ∀ phones : List PhoneNumber,
      ((addPhones oid ns phones).filter (fun p => p.organization_id == oid)).map
          PhoneNumber.number
        = ((phones.filter (fun p => p.organization_id == oid)).map PhoneNumber.number)
            ++ ns := by
  induction ns with
  | nil => intro phones; simp [addPhones]
  | cons n ns ih =>
    intro phones
    simp only [addPhones]
    rw [ih, List.filter_append]
    simp

/-- Any row present after an insertion run was already present or is one of
the inserted rows for the organization. -/
theorem mem_addPhones {oid : Nat} {ns : List NumberValue} :
    ∀ {phones : List PhoneNumber} {p : PhoneNumber}, p ∈ addPhones oid ns phones →
      p ∈ phones ∨ (p.number ∈ ns ∧ p.organization_id = oid) := by
  induction ns with
  | nil =>
    intro phones p h
    exact Or.inl h
  | cons n ns ih =>
    intro phones p h
    rcases ih h with h2 | h2
    · rcases List.mem_append.1 h2 with h3 | h3
      · exact Or.inl h3
      · have hp := List.mem_singleton.1 h3
        subst hp
        exact Or.inr ⟨List.mem_cons_self _ _, rfl⟩
    · exact Or.inr ⟨List.mem_cons_of_mem _ h2.1, h2.2⟩

/-- Autoincrement keeps the phone primary keys distinct. -/
theorem addPhones_ids_nodup (oid : Nat) (ns : List NumberValue) :
    ∀ phones : List PhoneNumber, (phones.map PhoneNumber.id).Nodup →
      ((addPhones oid ns phones).map PhoneNumber.id).Nodup := by
  induction ns with
  | nil =>
    intro phones h
    exact h
  | cons n ns ih =>
    intro phones h
    simp only [addPhones]
    apply ih
    rw [List.map_append, List.nodup_append]
    refine ⟨h, by simp, ?_⟩
    intro x hx hx2
    simp only [List.map_cons, List.map_nil, List.mem_singleton] at hx2
    subst hx2
    have := le_maxId hx
    omega

/-- Replacing the found row by itself is the identity on the table. -/
theorem map_replace_find_self {l : List Organization}
    (hid : (l.map Organization.id).Nodup) {oid : Nat} {org : Organization}
    (hfind : l.find? (fun o => o.id == oid) = some org) :
    l.map (fun o => if o.id == oid then org else o) = l := by
  have horg : org.id = oid := by simpa [beq_iff_eq] using List.find?_some hfind
  have hmem : org ∈ l := List.mem_of_find?_eq_some hfind
  have hcong : ∀ o ∈ l, (if o.id == oid then org else o) = o := by
    intro o ho
    by_cases h : o.id = oid
    · simp only [h, beq_self_eq_true, if_true]
      exact List.inj_on_of_nodup_map hid hmem ho (horg.trans h.symm)
    · simp [h]
  calc l.map (fun o => if o.id == oid then org else o) = l.map id :=
        List.map_congr_left hcong
    _ = l := List.map_id l

/-- The staged join rows are one row per supplied id that resolves. -/
theorem resolveActivityRows_eq (db : DB) (oid : Nat) (ids : List Nat) :
    resolveActivityRows db oid ids
      = (ids.filter (fun aid => (db.activities.find? (fun a => a.id == aid)).isSome)).map
          (fun aid => { organization_id := oid, activity_id := aid }) := by
  induction ids with
  | nil => rfl
  | cons i is ih =>
    unfold resolveActivityRows at ih ⊢
    simp only [List.filterMap_cons]
    rcases hf : db.activities.find? (fun a => a.id == i) with _ | a
    · rw [ih, List.filter_cons]
      simp [hf]
    · have hai : a.id = i := by simpa [beq_iff_eq] using List.find?_some hf
      rw [ih, List.filter_cons]
      simp [hf, hai]
/-- Phone rows after the full replace performed by the phone branch: the
organization's rows are deleted and the supplied set inserted, each number
passing through the ORM validator on assignment. -/
def replacePhones (lib : PhoneLib P) (db : DB) (oid : Nat)
    (ms : List PhoneNumberModel) : List PhoneNumber :=
  addPhones oid (ms.map (fun m => orm_validate_number lib m.number))
    (db.phone_numbers.filter (fun p => !(p.organization_id == oid)))

/-- Characterization of the phone-replace branch of update_organization: on
a constraint-satisfying state with the organization present, the handler
succeeds, deletes every phone row of the organization and inserts the
supplied set, and the resulting state again satisfies the constraints. -/
theorem update_organization_phone_branch {lib : PhoneLib P} {db : DB} {oid : Nat}
    {org : Organization} (ms : List PhoneNumberModel)
    (hok : dbOk db = true)
    (hfind : db.organizations.find? (fun o => o.id == oid) = some org) :
    update_organization lib db oid
        { name := none, building_id := none, phone_numbers := some ms,
          activity_ids := none }
      = (ApiResult.ok (org.id, org.name),
         { db with phone_numbers := replacePhones lib db oid ms })
    ∧ dbOk { db with phone_numbers := replacePhones lib db oid ms } = true := by
  obtain ⟨hb1, hb2, ho, hp, ha1, ha2, hl, hoa⟩ := dbOk_iff.1 hok
  have horgs : db.organizations.map (fun o => if o.id == oid then org else o)
      = db.organizations := map_replace_find_self ho hfind
  have hkept : ((db.phone_numbers.filter
      (fun p => !(p.organization_id == oid))).map PhoneNumber.id).Nodup :=
    hp.sublist ((List.filter_sublist _).map PhoneNumber.id)
  have hstaged : dbOk { db with phone_numbers := replacePhones lib db oid ms } = true := by
    rw [dbOk_iff]
    exact ⟨hb1, hb2, ho, addPhones_ids_nodup _ _ _ hkept, ha1, ha2, hl, hoa⟩
  refine ⟨?_, hstaged⟩
  unfold update_organization
  rw [hfind]
  simp only [horgs]
  unfold replacePhones at hstaged ⊢
  rw [if_pos hstaged]
  simp

/-- Filtering for the organization after keeping only other organizations
yields nothing. -/
theorem filter_own_of_kept (oid : Nat) (l : List PhoneNumber) :
    (l.filter (fun p => !(p.organization_id == oid))).filter
      (fun p => p.organization_id == oid) = [] := by
  induction l with
  | nil => rfl
  | cons p ps ih =>
    by_cases h : (p.organization_id == oid) = true
    · simp [List.filter_cons, h, ih]
    · simp [List.filter_cons, h, ih]

/-- Keeping only other organizations' rows is idempotent. -/
theorem filter_other_idem (oid : Nat) (l : List PhoneNumber) :
    (l.filter (fun p => !(p.organization_id == oid))).filter
      (fun p => !(p.organization_id == oid))
      = l.filter (fun p => !(p.organization_id == oid)) := by
  induction l with
  | nil => rfl
  | cons p ps ih =>
    by_cases h : (p.organization_id == oid) = true
    · simp [List.filter_cons, h, ih]
    · simp [List.filter_cons, h, ih]

/-- C7: updating an organization with a non-null phone_numbers list performs
a full replace: the call succeeds, the organization ends up with exactly the
supplied numbers (the empty list leaves it with no phone rows), rows of
other organizations are untouched, and applying the same update twice
returns the same response and the very same final state as applying it
once. -/
theorem replace_phone_numbers_full_replace_idempotent (lib : PhoneLib P)
    (db : DB) (oid : Nat) (org : Organization) (ms : List PhoneNumberModel)
    (hok : dbOk db = true)
    (hfind : db.organizations.find? (fun o => o.id == oid) = some org) :
    ((update_organization lib db oid
        { name := none, building_id := none, phone_numbers := some ms,
          activity_ids := none }).1 = ApiResult.ok (org.id, org.name))
    ∧ (((update_organization lib db oid
        { name := none, building_id := none, phone_numbers := some ms,
          activity_ids := none }).2.phone_numbers.filter
          (fun p => p.organization_id == oid)).map PhoneNumber.number
        = ms.map (fun m => orm_validate_number lib m.number))
    ∧ (ms = [] →
        (update_organization lib db oid
          { name := none, building_id := none, phone_numbers := some ms,
            activity_ids := none }).2.phone_numbers.filter
            (fun p => p.organization_id == oid) = [])
    ∧ ((update_organization lib db oid
        { name := none, building_id := none, phone_numbers := some ms,
          activity_ids := none }).2.phone_numbers.filter
          (fun p => !(p.organization_id == oid))
        = db.phone_numbers.filter (fun p => !(p.organization_id == oid)))
    ∧ (update_organization lib
        (update_organization lib db oid
          { name := none, building_id := none, phone_numbers := some ms,
            activity_ids := none }).2 oid
        { name := none, building_id := none, phone_numbers := some ms,
          activity_ids := none }
        = ((update_organization lib db oid
            { name := none, building_id := none, phone_numbers := some ms,
              activity_ids := none }).1,
           (update_organization lib db oid
            { name := none, building_id := none, phone_numbers := some ms,
              activity_ids := none }).2)) := by
  obtain ⟨heq, hok1⟩ := update_organization_phone_branch ms hok hfind
  have hfilter_own : ((replacePhones lib db oid ms).filter
      (fun p => p.organization_id == oid)).map PhoneNumber.number
      = ms.map (fun m => orm_validate_number lib m.number) := by
    unfold replacePhones
    rw [addPhones_filter_own_map, filter_own_of_kept]
    simp
  have hfilter_other : (replacePhones lib db oid ms).filter
      (fun p => !(p.organization_id == oid))
      = db.phone_numbers.filter (fun p => !(p.organization_id == oid)) := by
    unfold replacePhones
    rw [addPhones_filter_other, filter_other_idem]
  refine ⟨by rw [heq], ?_, ?_, ?_, ?_⟩
  · rw [heq]
    exact hfilter_own
  · intro hnil
    subst hnil
    rw [heq]
    have h0 := hfilter_own
    simp only [List.map_nil] at h0
    exact List.map_eq_nil_iff.1 h0
  · rw [heq]
    exact hfilter_other
  · obtain ⟨heq2, _⟩ := @update_organization_phone_branch P lib
      { db with phone_numbers := replacePhones lib db oid ms } oid org ms hok1 hfind
    have hrp : replacePhones lib
        { db with phone_numbers := replacePhones lib db oid ms } oid ms
        = replacePhones lib db oid ms := by
      show addPhones oid (ms.map (fun m => orm_validate_number lib m.number))
          ((replacePhones lib db oid ms).filter (fun p => !(p.organization_id == oid)))
        = replacePhones lib db oid ms
      rw [hfilter_other]
      rfl
    rw [heq, heq2, hrp]

/-- Organization with one existing phone row, for the C7 witness. -/
def dbC7W : DB :=
  { buildings := [{ id := 1, address := "Lenina 1", latitude := 55, longitude := 37 }],
    organizations := [{ id := 1, name := "Bread Co", building_id := 1 }],
    phone_numbers := [{ id := 5, number := NumberValue.str "+70000000000",
                        organization_id := 1 }],
    activities := [], organization_activities := [] }

/-- Witness for the C7 theorem at a concrete database and payload. -/
theorem replace_phone_numbers_witness :
    ((update_organization toyLib dbC7W 1
        { name := none, building_id := none,
          phone_numbers := some [{ number := "+79991234567" }],
          activity_ids := none }).1 = ApiResult.ok (1, "Bread Co"))
    ∧ (((update_organization toyLib dbC7W 1
        { name := none, building_id := none,
          phone_numbers := some [{ number := "+79991234567" }],
          activity_ids := none }).2.phone_numbers.filter
          (fun p => p.organization_id == 1)).map PhoneNumber.number
        = [NumberValue.str "+79991234567"]) := by
  have h := replace_phone_numbers_full_replace_idempotent toyLib dbC7W 1
    { id := 1, name := "Bread Co", building_id := 1 } [{ number := "+79991234567" }]
    (by decide) rfl
  exact ⟨h.1, by rw [h.2.1]; rfl⟩

/-- Join rows after the full replace performed by the activity_ids branch:
delete all rows of the organization, then insert one row per resolving id. -/
def replaceActs (db : DB) (oid : Nat) (ids : List Nat) : List OrganizationActivity :=
  db.organization_activities.filter (fun oa => !(oa.organization_id == oid))
    ++ resolveActivityRows db oid ids

/-- Characterization of the activity-replace branch of update_organization:
with the organization present, distinct supplied ids and a
constraint-satisfying state, the handler succeeds and the join rows of the
organization are fully replaced. -/
theorem update_organization_activity_branch {lib : PhoneLib P} {db : DB} {oid : Nat}
    {org : Organization} (ids : List Nat)
    (hok : dbOk db = true)
    (hfind : db.organizations.find? (fun o => o.id == oid) = some org)
    (hids : ids.Nodup) :
    update_organization lib db oid
        { name := none, building_id := none, phone_numbers := none,
          activity_ids := some ids }
      = (ApiResult.ok (org.id, org.name),
         { db with organization_activities := replaceActs db oid ids }) := by
  obtain ⟨hb1, hb2, ho, hp, ha1, ha2, hl, hoa⟩ := dbOk_iff.1 hok
  have horgs := map_replace_find_self ho hfind
  have hstaged : dbOk { db with organization_activities := replaceActs db oid ids }
      = true := by
    rw [dbOk_iff]
    refine ⟨hb1, hb2, ho, hp, ha1, ha2, hl, ?_⟩
    unfold replaceActs
    rw [List.map_append, List.nodup_append]
    refine ⟨hoa.sublist ((List.filter_sublist _).map _), ?_, ?_⟩
    · rw [resolveActivityRows_eq, List.map_map]
      apply List.Nodup.map ?_ (hids.filter _)
      intro a b hab
      exact congrArg Prod.snd hab
    · intro k hk1 hk2
      rw [List.mem_map] at hk1 hk2
      obtain ⟨oa, hoamem, rfl⟩ := hk1
      obtain ⟨row, hrmem, hkey⟩ := hk2
      have h1 : ¬ (oa.organization_id = oid) := by
        have h1b := (List.mem_filter.1 hoamem).2
        simpa using h1b
      rw [resolveActivityRows_eq, List.mem_map] at hrmem
      obtain ⟨aid, _, rfl⟩ := hrmem
      exact h1 (congrArg Prod.fst hkey).symm
  unfold update_organization
  rw [hfind]
  simp only [horgs]
  unfold replaceActs at hstaged ⊢
  rw [if_pos hstaged]
  simp

/-- Filtering for the organization after keeping only other organizations'
join rows yields nothing. -/
theorem filterOA_own_of_kept (oid : Nat) (l : List OrganizationActivity) :
    (l.filter (fun oa => !(oa.organization_id == oid))).filter
      (fun oa => oa.organization_id == oid) = [] := by
  induction l with
  | nil => rfl
  | cons oa rest ih =>
    by_cases h : (oa.organization_id == oid) = true
    · simp [List.filter_cons, h, ih]
    · simp [List.filter_cons, h, ih]

/-- C6: the activity_ids branch deletes every join row of the organization
and inserts one row per supplied id that resolves to an existing Activity;
ids that do not resolve are silently skipped, the call still succeeds, the
join rows of other organizations and the phone rows are untouched. -/
theorem replace_activities_skips_unresolvable (lib : PhoneLib P) (db : DB) (oid : Nat)
    (org : Organization) (ids : List Nat)
    (hok : dbOk db = true)
    (hfind : db.organizations.find? (fun o => o.id == oid) = some org)
    (hids : ids.Nodup) :
    ((update_organization lib db oid
        { name := none, building_id := none, phone_numbers := none,
          activity_ids := some ids }).1 = ApiResult.ok (org.id, org.name))
    ∧ ((update_organization lib db oid
        { name := none, building_id := none, phone_numbers := none,
          activity_ids := some ids }).2.organization_activities.filter
          (fun oa => oa.organization_id == oid)
        = (ids.filter (fun aid =>
            (db.activities.find? (fun a => a.id == aid)).isSome)).map
            (fun aid => { organization_id := oid, activity_id := aid }))
    ∧ ((update_organization lib db oid
        { name := none, building_id := none, phone_numbers := none,
          activity_ids := some ids }).2.organization_activities.filter
          (fun oa => !(oa.organization_id == oid))
        = db.organization_activities.filter (fun oa => !(oa.organization_id == oid)))
    ∧ ((update_organization lib db oid
        { name := none, building_id := none, phone_numbers := none,
          activity_ids := some ids }).2.phone_numbers = db.phone_numbers) := by
  have heq := @update_organization_activity_branch P lib db oid org ids hok hfind hids
  have hB : (resolveActivityRows db oid ids).filter
      (fun oa => oa.organization_id == oid) = resolveActivityRows db oid ids := by
    apply List.filter_eq_self.2
    intro row hr
    rw [resolveActivityRows_eq, List.mem_map] at hr
    obtain ⟨aid, _, rfl⟩ := hr
    simp
  have hB2 : (resolveActivityRows db oid ids).filter
      (fun oa => !(oa.organization_id == oid)) = [] := by
    rw [List.filter_eq_nil_iff]
    intro row hr
    rw [resolveActivityRows_eq, List.mem_map] at hr
    obtain ⟨aid, _, rfl⟩ := hr
    simp
  have hidem : (db.organization_activities.filter
        (fun oa => !(oa.organization_id == oid))).filter
        (fun oa => !(oa.organization_id == oid))
      = db.organization_activities.filter (fun oa => !(oa.organization_id == oid)) := by
    apply List.filter_eq_self.2
    intro row hr
    exact (List.mem_filter.1 hr).2
  refine ⟨by rw [heq], ?_, ?_, by rw [heq]⟩
  · rw [heq]
    show (replaceActs db oid ids).filter (fun oa => oa.organization_id == oid) = _
    unfold replaceActs
    rw [List.filter_append, filterOA_own_of_kept, hB, resolveActivityRows_eq]
    simp
  · rw [heq]
    show (replaceActs db oid ids).filter (fun oa => !(oa.organization_id == oid)) = _
    unfold replaceActs
    rw [List.filter_append, hB2, hidem]
    simp

/-- Database for the C6 witness: two organizations, each with one existing
association; activity 99 does not exist. -/
def dbC6W : DB :=
  { buildings := [{ id := 1, address := "Lenina 1", latitude := 55, longitude := 37 }],
    organizations := [{ id := 1, name := "Bread Co", building_id := 1 },
                      { id := 2, name := "Milk Co", building_id := 1 }],
    phone_numbers := [],
    activities := [{ id := 1, name := "Food", parent_id := none, level := some 1 },
                   { id := 2, name := "Bakery", parent_id := some 1, level := some 2 }],
    organization_activities := [{ organization_id := 1, activity_id := 2 },
                                { organization_id := 2, activity_id := 1 }] }

/-- Witness for the C6 theorem: replacing with one valid and one invalid id
succeeds, keeps only the valid association for the organization, and leaves
the other organization's association alone. -/
theorem replace_activities_witness :
    ((update_organization toyLib dbC6W 1
        { name := none, building_id := none, phone_numbers := none,
          activity_ids := some [1, 99] }).1 = ApiResult.ok (1, "Bread Co"))
    ∧ ((update_organization toyLib dbC6W 1
        { name := none, building_id := none, phone_numbers := none,
          activity_ids := some [1, 99] }).2.organization_activities.filter
          (fun oa => oa.organization_id == 1)
        = [{ organization_id := 1, activity_id := 1 }])
    ∧ ((update_organization toyLib dbC6W 1
        { name := none, building_id := none, phone_numbers := none,
          activity_ids := some [1, 99] }).2.organization_activities.filter
          (fun oa => !(oa.organization_id == 1))
        = [{ organization_id := 2, activity_id := 1 }]) := by
  have h := replace_activities_skips_unresolvable toyLib dbC6W 1
    { id := 1, name := "Bread Co", building_id := 1 } [1, 99]
    (by decide) rfl (by decide)
  exact ⟨h.1, by rw [h.2.1]; rfl, by rw [h.2.2.1]; rfl⟩

/-- A pydantic rejection always carries the phone validation message. -/
theorem pydantic_validate_number_error {lib : PhoneLib P} {v e : String}
    (h : pydantic_validate_number lib v = Except.error e) :
    e = "Неверный формат номера телефона" := by
  unfold pydantic_validate_number at h
  split at h
  · split at h
    · cases h
    · exact (Except.error.inj h).symm
  · exact (Except.error.inj h).symm

/-- A boundary rejection of a phone list carries the validation message. -/
theorem parse_phone_list_error {lib : PhoneLib P} :
    ∀ {raws : List String} {e : String},
      parse_phone_list lib raws = Except.error e →
      e = "Неверный формат номера телефона" := by
  intro raws
  induction raws with
  | nil =>
    intro e h
    cases h
  | cons r rs ih =>
    intro e h
    unfold parse_phone_list at h
    split at h
    next e2 he2 =>
      exact ((Except.error.inj h).symm).trans (pydantic_validate_number_error he2)
    next n hn =>
      split at h
      next e2 he2 => exact ((Except.error.inj h).symm).trans (ih he2)
      next ms2 hms2 => cases h

/-- Every element of a boundary-accepted phone list is the pydantic
validator's output on one of the raw inputs. -/
theorem parse_phone_list_ok {lib : PhoneLib P} :
    ∀ {raws : List String} {ms : List PhoneNumberModel},
      parse_phone_list lib raws = Except.ok ms →
      ∀ m ∈ ms, ∃ r, r ∈ raws ∧ pydantic_validate_number lib r = Except.ok m.number := by
  intro raws
  induction raws with
  | nil =>
    intro ms h m hm
    cases Except.ok.inj h
    cases hm
  | cons r rs ih =>
    intro ms h m hm
    unfold parse_phone_list at h
    split at h
    next e2 he2 => cases h
    next n hn =>
      split at h
      next e2 he2 => cases h
      next ms2 hms2 =>
        cases Except.ok.inj h
        rcases List.mem_cons.1 hm with rfl | hmem
        · exact ⟨r, List.mem_cons_self _ _, hn⟩
        · obtain ⟨r2, hr2, hv2⟩ := ih hms2 m hmem
          exact ⟨r2, List.mem_cons_of_mem _ hr2, hv2⟩

/-- When formatting round-trips through parsing (the E.164 stability of the
real library), the ORM validator maps a pydantic-accepted number to itself
as a string — never to the False sentinel. -/
theorem orm_validate_roundtrip {lib : PhoneLib P}
    (hstable : ∀ s p, lib.parseRU s = some p →
      ∃ q, lib.parseRU (lib.formatE164 p) = some q ∧
        lib.formatE164 q = lib.formatE164 p)
    {r n : String} (h : pydantic_validate_number lib r = Except.ok n) :
    orm_validate_number lib n = NumberValue.str n := by
  unfold pydantic_validate_number at h
  split at h
  next p hp =>
    split at h
    · cases Except.ok.inj h
      obtain ⟨q, hq1, hq2⟩ := hstable r p hp
      simp only [orm_validate_number, hq1, hq2]
    · cases h
  next => cases h

/-- On the main.py path, whose request models come from src/models.py and
whose validator is registered, numbers that fail to parse or validate are
rejected at the input boundary with the validation error (the handler never
runs on them), and every number the boundary accepts is stored by
create_organization and update_organization as its E.164 normalization —
each stored row is either a pre-existing row or carries the normalized
string of a payload number, not the False sentinel.  The api router path
has no such boundary; see api_phone_path_persists_false_sentinel. -/
theorem phone_numbers_normalized_never_sentinel (lib : PhoneLib P)
    (hstable : ∀ s p, lib.parseRU s = some p →
      ∃ q, lib.parseRU (lib.formatE164 p) = some q ∧
        lib.formatE164 q = lib.formatE164 p)
    (raws : List String) :
    (∀ e, parse_phone_list lib raws = Except.error e →
        e = "Неверный формат номера телефона")
    ∧ (∀ ms, parse_phone_list lib raws = Except.ok ms →
        (∀ m ∈ ms, orm_validate_number lib m.number = NumberValue.str m.number)
        ∧ (∀ (db : DB) (c : OrganizationCreate), c.phone_numbers = ms →
            ∀ ph ∈ (create_organization lib db c).2.phone_numbers,
              ph ∈ db.phone_numbers ∨ ∃ m ∈ ms, ph.number = NumberValue.str m.number)
        ∧ (∀ (db : DB) (oid : Nat) (u : OrganizationUpdate),
            u.phone_numbers = some ms →
            ∀ ph ∈ (update_organization lib db oid u).2.phone_numbers,
              ph ∈ db.phone_numbers ∨ ∃ m ∈ ms, ph.number = NumberValue.str m.number)) := by
  refine ⟨fun e h => parse_phone_list_error h, ?_⟩
  intro ms hms
  have hnorm : ∀ m ∈ ms, orm_validate_number lib m.number = NumberValue.str m.number := by
    intro m hm
    obtain ⟨r, _, hv⟩ := parse_phone_list_ok hms m hm
    exact orm_validate_roundtrip hstable hv
  have hstored : ∀ {ph : PhoneNumber},
      ph.number ∈ ms.map (fun m => orm_validate_number lib m.number) →
      ∃ m ∈ ms, ph.number = NumberValue.str m.number := by
    intro ph hph
    rw [List.mem_map] at hph
    obtain ⟨m, hm, hmn⟩ := hph
    exact ⟨m, hm, hmn.symm.trans (hnorm m hm)⟩
  refine ⟨hnorm, ?_, ?_⟩
  · intro db c hc ph hph
    unfold create_organization at hph
    repeat' first
      | dsimp only at hph
      | split at hph
    all_goals first
      | exact Or.inl hph
      | (rcases mem_addPhones hph with h | h
         · exact Or.inl h
         · rw [hc] at h
           exact Or.inr (hstored h.1))
  · intro db oid u hu ph hph
    unfold update_organization at hph
    rw [hu] at hph
    repeat' first
      | dsimp only at hph
      | split at hph
    all_goals first
      | exact Or.inl hph
      | (rcases mem_addPhones hph with h | h
         · exact Or.inl (List.mem_of_mem_filter h)
         · exact Or.inr (hstored h.1))

/-- Payload boundary of the api router path: the handlers in src/src/api/
take their request models from src/schemas.py, whose
PhoneNumberModel.validate_number places @classmethod above @field_validator
(lines 9-11); pydantic v2 silently never registers the wrapped validator,
so no validation runs and every raw string becomes a payload number as
supplied. -/
def api_phone_boundary (raws : List String) : List PhoneNumberModel :=
  raws.map (fun r => { number := r })

/-- C8: the claim fails on the api router path.  While the main.py path
rejects an unparseable number at the boundary with the validation error,
the api path accepts it unchecked because its schemas.py validator is never
registered; the raw string then reaches the ORM @validates hook, which
returns the Python literal False on the parse failure, and the update
commits — the organization ends up with the False sentinel persisted as its
stored phone number. -/
theorem api_phone_path_persists_false_sentinel (lib : PhoneLib P)
    (raw : String) (hraw : lib.parseRU raw = none)
    (db : DB) (oid : Nat) (org : Organization)
    (hok : dbOk db = true)
    (hfind : db.organizations.find? (fun o => o.id == oid) = some org) :
    (parse_phone_list lib [raw] = Except.error "Неверный формат номера телефона")
    ∧ (api_phone_boundary [raw] = [{ number := raw }])
    ∧ ((update_organization lib db oid
        { name := none, building_id := none,
          phone_numbers := some (api_phone_boundary [raw]),
          activity_ids := none }).1 = ApiResult.ok (org.id, org.name))
    ∧ (((update_organization lib db oid
        { name := none, building_id := none,
          phone_numbers := some (api_phone_boundary [raw]),
          activity_ids := none }).2.phone_numbers.filter
          (fun p => p.organization_id == oid)).map PhoneNumber.number
        = [NumberValue.pyFalse]) := by
  have horm : orm_validate_number lib raw = NumberValue.pyFalse := by
    unfold orm_validate_number
    rw [hraw]
  have hparse : parse_phone_list lib [raw]
      = Except.error "Неверный формат номера телефона" := by
    unfold parse_phone_list pydantic_validate_number
    rw [hraw]
  obtain ⟨heq, _⟩ :=
    @update_organization_phone_branch P lib db oid org (api_phone_boundary [raw]) hok hfind
  have hown : ((replacePhones lib db oid (api_phone_boundary [raw])).filter
      (fun p => p.organization_id == oid)).map PhoneNumber.number
      = [NumberValue.pyFalse] := by
    unfold replacePhones
    rw [addPhones_filter_own_map, filter_own_of_kept]
    simp [api_phone_boundary, horm]
  refine ⟨hparse, rfl, by rw [heq], ?_⟩
  rw [heq]
  exact hown

/-- Witness for the C8 theorem: on a concrete database the api-path update
with an unparseable number succeeds and stores the False sentinel as the
organization's phone number. -/
theorem api_phone_path_witness :
    ((update_organization toyLib dbC7W 1
        { name := none, building_id := none,
          phone_numbers := some (api_phone_boundary [""]),
          activity_ids := none }).1 = ApiResult.ok (1, "Bread Co"))
    ∧ (((update_organization toyLib dbC7W 1
        { name := none, building_id := none,
          phone_numbers := some (api_phone_boundary [""]),
          activity_ids := none }).2.phone_numbers.filter
          (fun p => p.organization_id == 1)).map PhoneNumber.number
        = [NumberValue.pyFalse]) := by
  have h := api_phone_path_persists_false_sentinel toyLib "" (by decide) dbC7W 1
    { id := 1, name := "Bread Co", building_id := 1 } (by decide) rfl
  exact ⟨h.2.2.1, h.2.2.2⟩
